import Mathlib

/-!
Verification of `src/pendulum/parser.py`: the dispatcher `parse` and the
classifier/reconstructor `_parse` that turn a generic tagged parse result
(produced by the external grammar parser `pendulum.parsing.parse`) into one
of the typed domain values Date, Time, DateTime, Duration or Interval.

The external collaborators (the grammar parser, the value constructors and
the calendar arithmetic of the wider pendulum library) are not part of the
source under verification; where a claim depends on them they are modelled
from the specification, with a doc comment saying so.
-/

namespace Pendulum

/-- A resolved timezone: UTC, a fixed offset parsed from the text, or a
named zone from the timezone database. -/
inductive Tz where
  | utc : Tz
  | offset (seconds : Int) : Tz
  | named (name : String) : Tz
deriving DecidableEq, Repr

/-- Typed calendar date (`pendulum.Date`): year/month/day, no timezone. -/
structure Date where
  year : Int
  month : Int
  day : Int
deriving DecidableEq, Repr

/-- Typed wall-clock time (`pendulum.Time`): no date, no timezone. -/
structure Time where
  hour : Int
  minute : Int
  second : Int
  microsecond : Int
deriving DecidableEq, Repr

/-- Typed zoned instant (`pendulum.DateTime`): calendar fields plus a
resolved timezone. -/
structure DateTime where
  year : Int
  month : Int
  day : Int
  hour : Int
  minute : Int
  second : Int
  microsecond : Int
  tz : Tz
deriving DecidableEq, Repr

/-- The public `pendulum.Duration` type, with the field breakdown the
classifier reads: `weeks`/`remaining_days` and `minutes`/`remaining_seconds`
are normalized so days and seconds are not double-counted. -/
structure Duration where
  years : Int
  months : Int
  weeks : Int
  remaining_days : Int
  hours : Int
  minutes : Int
  remaining_seconds : Int
  microseconds : Int
deriving DecidableEq, Repr

/-- The alternate native duration encoding (`pendulum._pendulum.Duration`,
the Rust-accelerated type): plain eight-field record. -/
structure RustDuration where
  years : Int
  months : Int
  weeks : Int
  days : Int
  hours : Int
  minutes : Int
  seconds : Int
  microseconds : Int
deriving DecidableEq, Repr

/-- A `datetime.datetime` value as produced by the external grammar parser:
calendar date, wall time, and the optional offset/zone carried by the text. -/
structure PyDateTime where
  year : Int
  month : Int
  day : Int
  hour : Int
  minute : Int
  second : Int
  microsecond : Int
  tzinfo : Option Tz
deriving DecidableEq, Repr

/-- A `datetime.date` value (that is not a `datetime.datetime`). -/
structure PyDate where
  year : Int
  month : Int
  day : Int
deriving DecidableEq, Repr

/-- A `datetime.time` value. -/
structure PyTime where
  hour : Int
  minute : Int
  second : Int
  microsecond : Int
deriving DecidableEq, Repr

/-- The generic interval result `pendulum.parsing._Interval`: optional
start, optional end, optional duration. -/
structure _Interval where
  start : Option PyDateTime
  end_ : Option PyDateTime
  duration : Option Duration
deriving DecidableEq, Repr

/-- The generic tagged parse result returned by the external grammar
parser, as discriminated by the chain of `isinstance` checks in `_parse`:
`datetime.datetime`, `datetime.date`, `datetime.time`, `_Interval`, the
public `Duration`, the native `RustDuration`, or anything else (an
unrecognized tag). -/
inductive ParseResult where
  | datetime (p : PyDateTime) : ParseResult
  | date (p : PyDate) : ParseResult
  | time (p : PyTime) : ParseResult
  | interval (i : _Interval) : ParseResult
  | duration (d : Duration) : ParseResult
  | rustDuration (d : RustDuration) : ParseResult
  | unknown (tag : String) : ParseResult
deriving DecidableEq, Repr

/-- The typed domain value returned to the caller. -/
inductive Value where
  | date (d : Date) : Value
  | time (t : Time) : Value
  | datetime (d : DateTime) : Value
  | duration (d : Duration) : Value
  | interval (start : DateTime) (end_ : DateTime) : Value
deriving DecidableEq, Repr

/-- Errors the classifier can raise itself: `NotImplementedError` for an
unrecognized tag (the spec's `UnsupportedResult`), and the failure of
dereferencing an absent optional field (the `t.cast` of a `None` endpoint,
which in Python would fault downstream). -/
inductive ParseError where
  | notImplemented : ParseError
  | noneDereference : ParseError
deriving DecidableEq, Repr

/-- The caller's options dictionary, restricted to the keys this core
reads: `now` (absent, or present with an optional override instant — Python
distinguishes a missing key from a `None` value, so the field is doubly
optional), `tz` (absent, or a default timezone), plus opaque passthrough
flags forwarded to the external grammar parser. -/
structure Options where
  now : Option (Option DateTime)
  tz : Option Tz
  extra : List (String × Bool)
deriving DecidableEq, Repr

/-! ### Calendar arithmetic, modelled from the spec

The calendar-aware add/subtract on zoned instants lives in
`pendulum.datetime.DateTime.add`/`.subtract`, outside the source under
verification.  Modelled from the spec: calendar-aware addition applies, in
this fixed order, years, then months, then weeks, then days, then hours,
then minutes, then seconds, then microseconds; year/month steps clamp the
day to the target month's length; subtraction applies the same fields in
the same order with negated values.  Timezone-database irregularities are
out of the spec's scope, so the timezone label is carried unchanged. -/

/-- Proleptic Gregorian leap year. -/
def isLeap (y : Int) : Bool :=
  y % 4 == 0 && (y % 100 != 0 || y % 400 == 0)

/-- Number of days in the given month of the given year. -/
def daysInMonth (y m : Int) : Int :=
  if m == 2 then (if isLeap y then 29 else 28)
  else if m == 4 || m == 6 || m == 9 || m == 11 then 30
  else 31

/-- Days since 1970-01-01 of a proleptic Gregorian calendar date. -/
def daysFromCivil (y m d : Int) : Int :=
  let y' : Int := if m ≤ 2 then y - 1 else y
  let era : Int := Int.fdiv y' 400
  let yoe : Int := y' - era * 400
  let mp : Int := if m > 2 then m - 3 else m + 9
  let doy : Int := Int.fdiv (153 * mp + 2) 5 + d - 1
  let doe : Int := yoe * 365 + Int.fdiv yoe 4 - Int.fdiv yoe 100 + doy
  era * 146097 + doe - 719468

/-- The proleptic Gregorian calendar date that is `z` days after
1970-01-01. -/
def civilFromDays (z : Int) : Int × Int × Int :=
  let z' : Int := z + 719468
  let era : Int := Int.fdiv z' 146097
  let doe : Int := z' - era * 146097
  let yoe : Int :=
    Int.fdiv (doe - Int.fdiv doe 1460 + Int.fdiv doe 36524 - Int.fdiv doe 146096) 365
  let y : Int := yoe + era * 400
  let doy : Int := doe - (365 * yoe + Int.fdiv yoe 4 - Int.fdiv yoe 100)
  let mp : Int := Int.fdiv (5 * doy + 2) 153
  let d : Int := doy - Int.fdiv (153 * mp + 2) 5 + 1
  let m : Int := if mp < 10 then mp + 3 else mp - 9
  (if m ≤ 2 then y + 1 else y, m, d)

/-- Add `n` years, clamping the day to the target month's length. -/
def DateTime.addYears (dt : DateTime) (n : Int) : DateTime :=
  let y : Int := dt.year + n
  { dt with year := y, day := min dt.day (daysInMonth y dt.month) }

/-- Add `n` calendar months, clamping the day to the target month's
length. -/
def DateTime.addMonths (dt : DateTime) (n : Int) : DateTime :=
  let total : Int := 12 * dt.year + (dt.month - 1) + n
  let y : Int := Int.fdiv total 12
  let m : Int := Int.fmod total 12 + 1
  { dt with year := y, month := m, day := min dt.day (daysInMonth y m) }

/-- Add `n` days, rolling over month and year boundaries. -/
def DateTime.addDays (dt : DateTime) (n : Int) : DateTime :=
  let c := civilFromDays (daysFromCivil dt.year dt.month dt.day + n)
  { dt with year := c.1, month := c.2.1, day := c.2.2 }

/-- Add `n` weeks. -/
def DateTime.addWeeks (dt : DateTime) (n : Int) : DateTime :=
  dt.addDays (7 * n)

/-- Add `n` microseconds, carrying overflow of the time of day into whole
days. -/
def DateTime.addMicroseconds (dt : DateTime) (n : Int) : DateTime :=
  let tod : Int :=
    ((dt.hour * 60 + dt.minute) * 60 + dt.second) * 1000000 + dt.microsecond + n
  let shift : Int := Int.fdiv tod 86400000000
  let rest : Int := Int.fmod tod 86400000000
  let dt' := dt.addDays shift
  { dt' with
    hour := Int.fdiv rest 3600000000
    minute := Int.fmod (Int.fdiv rest 60000000) 60
    second := Int.fmod (Int.fdiv rest 1000000) 60
    microsecond := Int.fmod rest 1000000 }

/-- Add `n` hours. -/
def DateTime.addHours (dt : DateTime) (n : Int) : DateTime :=
  dt.addMicroseconds (3600000000 * n)

/-- Add `n` minutes. -/
def DateTime.addMinutes (dt : DateTime) (n : Int) : DateTime :=
  dt.addMicroseconds (60000000 * n)

/-- Add `n` seconds. -/
def DateTime.addSeconds (dt : DateTime) (n : Int) : DateTime :=
  dt.addMicroseconds (1000000 * n)

/-- Modelled from the spec: `pendulum.DateTime.add`, calendar-aware
addition of the eight duration fields applied in the fixed order years,
months, weeks, days, hours, minutes, seconds, microseconds. -/
def DateTime.add (dt : DateTime) (years months weeks days hours minutes seconds
    microseconds : Int) : DateTime :=
  ((((((((dt.addYears years).addMonths months).addWeeks weeks).addDays
    days).addHours hours).addMinutes minutes).addSeconds
    seconds).addMicroseconds microseconds)

/-- Modelled from the spec: `pendulum.DateTime.subtract`, calendar-aware
subtraction — the same field breakdown applied in the same order with
negated values. -/
def DateTime.subtract (dt : DateTime) (years months weeks days hours minutes
    seconds microseconds : Int) : DateTime :=
  dt.add (-years) (-months) (-weeks) (-days) (-hours) (-minutes) (-seconds)
    (-microseconds)

/-! ### Value constructors, modelled from the spec

The factory functions `pendulum.date`, `pendulum.time`, `pendulum.datetime`,
`pendulum.instance` and `pendulum.duration` live outside the source under
verification.  Modelled from the spec: they construct the typed values by
direct field copy (their own range validation is out of the spec's scope);
`pendulum.instance` wraps a possibly-naive instant with a timezone, keeping
an offset already embedded in the value and falling back to the given
timezone otherwise. -/

/-- Modelled from the spec: the `pendulum.date` factory. -/
def date (year month day : Int) : Date :=
  { year := year, month := month, day := day }

/-- Modelled from the spec: the `pendulum.time` factory. -/
def time (hour minute second microsecond : Int) : Time :=
  { hour := hour, minute := minute, second := second,
    microsecond := microsecond }

/-- Modelled from the spec: the `pendulum.datetime` factory, taking the
already-resolved timezone. -/
def datetime (year month day hour minute second microsecond : Int)
    (tz : Tz) : DateTime :=
  { year := year, month := month, day := day, hour := hour, minute := minute,
    second := second, microsecond := microsecond, tz := tz }

/-- Modelled from the spec: `pendulum.instance`, wrapping a parsed instant
with a timezone — the instant's own offset takes precedence, else the given
default applies. -/
def instance_ (p : PyDateTime) (tz : Tz) : DateTime :=
  datetime p.year p.month p.day p.hour p.minute p.second p.microsecond
    (p.tzinfo.getD tz)

/-- Modelled from the spec: the `pendulum.duration` factory, normalizing
plain day and second counts so weeks/days and minutes/seconds do not
double-count. -/
def duration (years months weeks days hours minutes seconds
    microseconds : Int) : Duration :=
  { years := years, months := months,
    weeks := weeks + Int.fdiv days 7, remaining_days := Int.fmod days 7,
    hours := hours, minutes := minutes + Int.fdiv seconds 60,
    remaining_seconds := Int.fmod seconds 60, microseconds := microseconds }

/-! ### The classifier/reconstructor `_parse` and the dispatcher `parse`

Translated from `src/pendulum/parser.py`.  The external grammar parser
`base_parse` is a black box and is passed as a parameter; the system clock
read by `pendulum.now()` is passed as the explicit `clock` parameter. -/

/-- The timezone default `options.get("tz", UTC)`. -/
def Options.tzDefault (opts : Options) : Tz :=
  opts.tz.getD Tz.utc

/-- The tag dispatch of `_parse` (`src/pendulum/parser.py` lines 64-147):
everything after the `"now"` fast path and the external parse call. -/
def classify (opts : Options) (parsed : ParseResult) : Except ParseError Value :=
  match parsed with
  | .datetime p =>
      .ok (.datetime (datetime p.year p.month p.day p.hour p.minute p.second
        p.microsecond (p.tzinfo.getD opts.tzDefault)))
  | .date p => .ok (.date (date p.year p.month p.day))
  | .time p => .ok (.time (time p.hour p.minute p.second p.microsecond))
  | .interval i =>
      match i.duration with
      | some dur =>
          match i.start with
          | some s =>
              let dt := instance_ s opts.tzDefault
              .ok (.interval dt
                (dt.add dur.years dur.months dur.weeks dur.remaining_days
                  dur.hours dur.minutes dur.remaining_seconds
                  dur.microseconds))
          | none =>
              match i.end_ with
              | some e =>
                  let dt := instance_ e opts.tzDefault
                  .ok (.interval
                    (dt.subtract dur.years dur.months dur.weeks
                      dur.remaining_days dur.hours dur.minutes
                      dur.remaining_seconds dur.microseconds)
                    dt)
              | none => .error .noneDereference
      | none =>
          match i.start, i.end_ with
          | some s, some e =>
              .ok (.interval (instance_ s opts.tzDefault)
                (instance_ e opts.tzDefault))
          | _, _ => .error .noneDereference
  | .duration d => .ok (.duration d)
  | .rustDuration d =>
      .ok (.duration (duration d.years d.months d.weeks d.days d.hours
        d.minutes d.seconds d.microseconds))
  | .unknown _ => .error .notImplemented

/-- Translation of `_parse` (`src/pendulum/parser.py` lines 50-147): special-case the
literal `"now"` (returning the current zoned instant `clock` without
consulting the grammar parser), otherwise run the external parser and
dispatch on the tag of its result. -/
def _parse (base_parse : String → Options → ParseResult) (clock : DateTime)
    (text : String) (opts : Options) : Except ParseError Value :=
  if text = "now" then .ok (.datetime clock)
  else classify opts (base_parse text opts)

/-- The dispatcher's normalization `options["now"] = options.get("now")`:
the `now` key is made present, bound to its previous value or `None`. -/
def Options.withNowKey (opts : Options) : Options :=
  { opts with now := some (opts.now.getD none) }

/-- Translation of `parse` (`src/pendulum/parser.py` lines 26-47): normalize the `now`
key, then delegate to `_parse`. -/
def parse (base_parse : String → Options → ParseResult) (clock : DateTime)
    (text : String) (opts : Options) : Except ParseError Value :=
  _parse base_parse clock text opts.withNowKey

/-- The timezone attached to a classification result, when that result is
a zoned date-time. -/
def resultTz : Except ParseError Value → Option Tz
  | .ok (.datetime d) => some d.tz
  | _ => none

/-- The external parser's documented invariant on generic intervals: at
least two of start, end and duration are present. -/
def _Interval.wellFormed (i : _Interval) : Prop :=
  (i.start.isSome ∧ i.end_.isSome) ∨ (i.start.isSome ∧ i.duration.isSome) ∨
    (i.end_.isSome ∧ i.duration.isSome)

end Pendulum

open Pendulum

deriving instance DecidableEq for Except

/-- C1 counterexample: with the clock at 2024-05-01T12:00:00Z and a `now`
override of 1999-12-31T23:59:59Z, `parse "now"` does not return the
override instant (it returns the clock reading instead), so the claim that
`parse` with `now = I` returns exactly `I` is false. -/
theorem C1_counterexample :
    parse (fun _ _ => ParseResult.unknown "")
      (datetime 2024 5 1 12 0 0 0 Tz.utc) "now"
      { now := some (some (datetime 1999 12 31 23 59 59 0 Tz.utc)),
        tz := none, extra := [] } ≠
    Except.ok (Value.datetime (datetime 1999 12 31 23 59 59 0 Tz.utc)) := by
  decide

/-- C1 (amended): for every external parser, clock reading and options —
including options carrying a `now` override — `parse` on the literal text
`"now"` returns the current clock instant; the result does not depend on
the external grammar parser (which is never consulted), and the `now`
override is ignored, the clock being read whenever the text is `"now"`. -/
theorem C1_now_returns_clock
    (base_parse : String → Options → ParseResult) (clock : DateTime)
    (opts : Options) :
    parse base_parse clock "now" opts = Except.ok (Value.datetime clock) :=
  rfl

/-- C2: a generic interval with start `S` and duration `D` (end absent)
reconstructs to the interval from the resolved start to the resolved start
plus `D`, the duration fields applied in the fixed order years, months,
weeks, remaining-days, hours, minutes, remaining-seconds, microseconds;
symmetrically, with end `E` and duration `D` (start absent) it
reconstructs to the interval ending at the resolved end and starting at
the resolved end minus `D`, the same fields subtracted in the same
order. -/
theorem C2_interval_relative_endpoints (opts : Options)
    (S E : PyDateTime) (D : Duration) :
    (classify opts (.interval ⟨some S, none, some D⟩) =
      Except.ok (Value.interval (instance_ S opts.tzDefault)
        (DateTime.addMicroseconds
          (DateTime.addSeconds
            (DateTime.addMinutes
              (DateTime.addHours
                (DateTime.addDays
                  (DateTime.addWeeks
                    (DateTime.addMonths
                      (DateTime.addYears (instance_ S opts.tzDefault)
                        D.years)
                      D.months)
                    D.weeks)
                  D.remaining_days)
                D.hours)
              D.minutes)
            D.remaining_seconds)
          D.microseconds))) ∧
    (classify opts (.interval ⟨none, some E, some D⟩) =
      Except.ok (Value.interval
        (DateTime.addMicroseconds
          (DateTime.addSeconds
            (DateTime.addMinutes
              (DateTime.addHours
                (DateTime.addDays
                  (DateTime.addWeeks
                    (DateTime.addMonths
                      (DateTime.addYears (instance_ E opts.tzDefault)
                        (-D.years))
                      (-D.months))
                    (-D.weeks))
                  (-D.remaining_days))
                (-D.hours))
              (-D.minutes))
            (-D.remaining_seconds))
          (-D.microseconds))
        (instance_ E opts.tzDefault))) :=
  ⟨rfl, rfl⟩

/-- C3: for an absolute date-time result, the returned instant's timezone
follows a strict precedence — the explicit offset carried by the parsed
text when present, regardless of `options.tz`; otherwise `options.tz`;
otherwise UTC. -/
theorem C3_timezone_precedence (p : PyDateTime) (opts : Options) :
    (∀ z, p.tzinfo = some z →
      resultTz (classify opts (.datetime p)) = some z) ∧
    (∀ z, p.tzinfo = none → opts.tz = some z →
      resultTz (classify opts (.datetime p)) = some z) ∧
    (p.tzinfo = none → opts.tz = none →
      resultTz (classify opts (.datetime p)) = some Tz.utc) := by
  refine ⟨fun z hz => ?_, fun z hz ht => ?_, fun hz ht => ?_⟩
  · simp [classify, resultTz, datetime, Options.tzDefault, hz]
  · simp [classify, resultTz, datetime, Options.tzDefault, hz, ht]
  · simp [classify, resultTz, datetime, Options.tzDefault, hz, ht]

/-- C3 witness: the precedence theorem applied at concrete inputs — an
explicit offset beats a configured zone; a configured zone applies to a
naive result; UTC applies when neither is given. -/
theorem C3_timezone_precedence_witness :
    resultTz (classify ⟨none, some (Tz.named "Europe/Paris"), []⟩
      (.datetime ⟨2021, 1, 1, 0, 0, 0, 0, some (Tz.offset 3600)⟩)) =
        some (Tz.offset 3600) ∧
    resultTz (classify ⟨none, some (Tz.named "Europe/Paris"), []⟩
      (.datetime ⟨2021, 1, 1, 0, 0, 0, 0, none⟩)) =
        some (Tz.named "Europe/Paris") ∧
    resultTz (classify ⟨none, none, []⟩
      (.datetime ⟨2021, 1, 1, 0, 0, 0, 0, none⟩)) = some Tz.utc :=
  ⟨(C3_timezone_precedence _ _).1 _ rfl,
   (C3_timezone_precedence _ _).2.1 _ rfl rfl,
   (C3_timezone_precedence _ _).2.2 rfl rfl⟩

/-- C4: a generic interval carrying both endpoints and no duration is
rebuilt by resolving start and end independently, each with the
`options.tz` default (UTC when unset), with no duration arithmetic. -/
theorem C4_interval_absolute_endpoints (opts : Options)
    (s e : PyDateTime) :
    classify opts (.interval ⟨some s, some e, none⟩) =
      Except.ok (Value.interval (instance_ s opts.tzDefault)
        (instance_ e opts.tzDefault)) :=
  rfl

/-- C5: under the external parser's invariant that at least two of start,
end and duration are present, interval reconstruction never dereferences
an absent field — every well-formed generic interval classifies to a
value. -/
theorem C5_interval_access_safety (opts : Options) (i : _Interval)
    (h : i.wellFormed) :
    ∃ v, classify opts (.interval i) = Except.ok v := by
  obtain ⟨s, e, d⟩ := i
  cases d with
  | some dur =>
    cases s with
    | some sv => exact ⟨_, rfl⟩
    | none =>
      cases e with
      | some ev => exact ⟨_, rfl⟩
      | none => simp [_Interval.wellFormed] at h
  | none =>
    cases s with
    | some sv =>
      cases e with
      | some ev => exact ⟨_, rfl⟩
      | none => simp [_Interval.wellFormed] at h
    | none => simp [_Interval.wellFormed] at h

/-- C5 witness: the safety theorem applied to a concrete well-formed
interval (both endpoints present, duration absent). -/
theorem C5_interval_access_safety_witness :
    ∃ v, classify ⟨none, none, []⟩
      (.interval ⟨some ⟨2021, 1, 1, 0, 0, 0, 0, none⟩,
        some ⟨2021, 2, 1, 0, 0, 0, 0, none⟩, none⟩) = Except.ok v :=
  C5_interval_access_safety _ _ (Or.inl ⟨rfl, rfl⟩)

/-- C6: a generic result with a tag outside the known kinds raises the
unsupported-result error (`NotImplementedError`); no silent default value
is returned. -/
theorem C6_unknown_tag_raises (opts : Options) (tag : String) :
    classify opts (.unknown tag) = Except.error ParseError.notImplemented :=
  rfl

/-- C7: a generic result that is already the public `Duration` type passes
through unchanged, field for field. -/
theorem C7_duration_passthrough (opts : Options) (d : Duration) :
    classify opts (.duration d) = Except.ok (Value.duration d) :=
  rfl

/-- C8: an absolute-date result classifies to a `Date` carrying exactly
the parsed year, month and day, with no timezone involved. -/
theorem C8_absolute_date (opts : Options) (p : PyDate) :
    classify opts (.date p) =
      Except.ok (Value.date ⟨p.year, p.month, p.day⟩) :=
  rfl

/-- C9: when both start and duration are present, the reconstructed end is
start plus the duration and any end carried by the generic result is
ignored — the classification result is the same for every value of the end
field. -/
theorem C9_end_field_ignored (opts : Options) (s : PyDateTime)
    (d : Duration) (e e' : Option PyDateTime) :
    classify opts (.interval ⟨some s, e, some d⟩) =
      classify opts (.interval ⟨some s, e', some d⟩) ∧
    classify opts (.interval ⟨some s, e, some d⟩) =
      Except.ok (Value.interval (instance_ s opts.tzDefault)
        ((instance_ s opts.tzDefault).add d.years d.months d.weeks
          d.remaining_days d.hours d.minutes d.remaining_seconds
          d.microseconds)) :=
  ⟨rfl, rfl⟩

/-- The classifier reads only the `tz` entry of the options: the `now`
entry never influences its result. -/
theorem classify_ignores_now (opts : Options) (n : Option (Option DateTime))
    (r : ParseResult) :
    classify { opts with now := n } r = classify opts r := by
  cases r <;> rfl

/-- C10: the public `parse` returns exactly what the internal `_parse`
returns on the same arguments — the normalization that makes the `now` key
present never changes the observable result, provided the external grammar
parser does not read the `now` key (it is a grammar over the text). -/
theorem C10_parse_equals_internal
    (base_parse : String → Options → ParseResult) (clock : DateTime)
    (text : String) (opts : Options)
    (h : ∀ t o n, base_parse t { o with now := n } = base_parse t o) :
    parse base_parse clock text opts = _parse base_parse clock text opts := by
  unfold parse _parse Options.withNowKey
  by_cases htext : text = "now"
  · simp [htext]
  · simp only [if_neg htext]
    rw [h]
    exact classify_ignores_now opts _ _

/-- C10 witness: the equivalence applied to a concrete `now`-independent
external parser and concrete arguments. -/
theorem C10_parse_equals_internal_witness :
    parse (fun _ _ => ParseResult.unknown "x")
      (datetime 2024 1 1 0 0 0 0 Tz.utc) "2021-01-01" ⟨none, none, []⟩ =
    _parse (fun _ _ => ParseResult.unknown "x")
      (datetime 2024 1 1 0 0 0 0 Tz.utc) "2021-01-01" ⟨none, none, []⟩ :=
  C10_parse_equals_internal _ _ _ _ (fun _ _ _ => rfl)
